import Mathlib

/-!
Verification development for the WaterMarks client (src/src/app/App.tsx).

The client-side job-lifecycle logic of App.tsx is shallowly embedded below:
React state hooks become fields of an explicit `AppState` record, each event
handler becomes a pure function from the old state (plus the responses the
network would deliver) to the new state together with a list of observable
effects (`Ev`), and `setTimeout`/`setInterval` calls become `Ev.schedule` /
`Ev.scheduleExpiry` events whose payload is the delay in milliseconds or
seconds exactly as passed in the source.  Strings carried in messages are kept
verbatim; file names are modelled as lists of characters so that the
first-occurrence semantics of JavaScript String.replace can be stated exactly.
-/

namespace WaterMarks

/-- The ProcessingStatus union type of App.tsx (line 5). -/
inductive ProcessingStatus where
  | idle
  | checking_queue
  | queue_full_waiting
  | queued
  | uploading
  | splitting
  | adding_watermarks
  | merging
  | downloading
  | finished
  | error
deriving DecidableEq

/-- The two page stages of App.tsx (line 44): the home page and the processing view. -/
inductive Stage where
  | home
  | processing
deriving DecidableEq

/-- QueueInfo of App.tsx (lines 18-22). `estimatedWaitSeconds` is nullable. -/
structure QueueInfo where
  position : Nat
  jobsAhead : Nat
  estimatedWaitSeconds : Option Nat
deriving DecidableEq

/-- QueueWaitInfo of App.tsx (lines 36-41). -/
structure QueueWaitInfo where
  activeJobs : Nat
  queueCount : Nat
  retryAfterSeconds : Nat
  countdownSeconds : Nat
deriving DecidableEq

/-- CheckSizeResponse of App.tsx (lines 24-34): the admission-check response. -/
structure CheckSizeResponse where
  allowed : Bool
  max_allowed_size : Nat
  available_ram : Nat
  message : String
  queue_available : Bool
  queue_message : String
  retry_after_seconds : Option Nat
  queue_count : Nat
  active_jobs : Nat
deriving DecidableEq

/-- HistoryItem of App.tsx (lines 7-16).  Timestamps and entry ids are modelled
as naturals (the source uses `Date.now()` for both).  `expiryTimer` holds the
delay in milliseconds of the pending timer when one is attached (the source
stores the setTimeout handle created with that delay). -/
structure HistoryItem where
  id : Nat
  timestamp : Nat
  originalName : List Char
  watermarkedName : List Char
  downloadUrl : String
  downloadFailed : Bool
  jobId : Option String
  expiryTimer : Option Nat
deriving DecidableEq

/-- The name, MIME type and byte size of a selected file. -/
structure FileInfo where
  name : List Char
  type : String
  size : Nat
deriving DecidableEq

/-- The React state hooks of App.tsx (lines 44-64) relevant to the job
lifecycle, collected into one record.  `retryAttempt` is `retryAttemptRef`. -/
structure AppState where
  currentStage : Stage
  chunkSize : String
  selectedFile : Option FileInfo
  processingStatus : ProcessingStatus
  progress : Nat
  errorMessage : String
  homeErrorMessage : String
  history : List HistoryItem
  currentJobId : Option String
  showDownloadButton : Bool
  showExpiryWarning : Bool
  queueInfo : Option QueueInfo
  queueWaitInfo : Option QueueWaitInfo
  retryAttempt : Nat
deriving DecidableEq

/-- Observable effects emitted by the handlers: network calls, status updates,
sleeps, and timer scheduling.  Delays are recorded with the numeric payloads
used at the corresponding call sites in App.tsx. -/
inductive Ev where
  | checkSize
  | setStatus (st : ProcessingStatus)
  | sleep (ms : Nat)
  | startCountdown
  | schedule (delaySeconds : Nat)
  | clearQueueTimers
  | clearPolling
  | startUpload
  | download (jobId : String)
  | save (name : List Char)
  | cleanup (jobId : String)
  | scheduleExpiry (entryId : Nat) (ms : Nat)
  | alertMsg (msg : String)
deriving DecidableEq

/-- Outcome of one `checkAndWait` invocation inside `waitForQueueSpace`
(App.tsx lines 175-238): either the promise resolves (with `true` when queue
space was found, `false` on a definitive error), or a re-check is scheduled
after `delaySeconds` seconds. -/
inductive WaitOutcome where
  | stop (resolved : Bool)
  | recheck (delaySeconds : Nat)
deriving DecidableEq

/-- One `checkAndWait` invocation from `waitForQueueSpace` (App.tsx lines
176-231), applied to the admission response `r` it received.  Mirrors the
source branch for branch: the `!allowed && queue_available` rejection (lines
180-185), the `queue_available` resolution (lines 188-193), and otherwise the
denial path that bumps `retryAttemptRef`, picks 5 s for the first attempt and
10 s for every later attempt, stores the wait info, starts the display
countdown and schedules the next check (lines 196-230). -/
def checkAndWaitStep (s : AppState) (r : CheckSizeResponse) :
    AppState × List Ev × WaitOutcome :=
  if r.allowed = false ∧ r.queue_available = true then
    ({ s with processingStatus := ProcessingStatus.error, errorMessage := r.message },
     [Ev.checkSize, Ev.setStatus ProcessingStatus.error], WaitOutcome.stop false)
  else if r.queue_available = true then
    ({ s with queueWaitInfo := none, retryAttempt := 0 },
     [Ev.checkSize], WaitOutcome.stop true)
  else
    let attempt := s.retryAttempt + 1
    let retrySeconds := if attempt = 1 then 5 else 10
    ({ s with retryAttempt := attempt,
              queueWaitInfo := some {
                activeJobs := r.active_jobs,
                queueCount := r.queue_count,
                retryAfterSeconds := retrySeconds,
                countdownSeconds := retrySeconds } },
     [Ev.checkSize, Ev.startCountdown, Ev.schedule retrySeconds],
     WaitOutcome.recheck retrySeconds)

/-- The `waitForQueueSpace` loop (App.tsx lines 173-242) driven by the list of
admission responses the successive checks would receive.  Returns the final
state, the concatenated effects, and `some resolved` once the promise
resolves (`none` when the response list runs out while a re-check is still
pending). -/
def waitLoop : AppState → List CheckSizeResponse → AppState × List Ev × Option Bool
  | s, [] => (s, [], none)
  | s, r :: rs =>
    let step := checkAndWaitStep s r
    match step.2.2 with
    | WaitOutcome.stop b => (step.1, step.2.1, some b)
    | WaitOutcome.recheck _ =>
      ((waitLoop step.1 rs).1,
       step.2.1 ++ (waitLoop step.1 rs).2.1,
       (waitLoop step.1 rs).2.2)

/-- The delays (in seconds) of the re-checks scheduled in an effect list. -/
def scheduledDelays (evs : List Ev) : List Nat :=
  evs.filterMap fun e =>
    match e with
    | Ev.schedule d => some d
    | _ => none

/-- How many times an effect list sets the status to `uploading`. -/
def uploadingSetCount (evs : List Ev) : Nat :=
  evs.countP fun e => e = Ev.setStatus ProcessingStatus.uploading

/-- The head of `startProcessing` (App.tsx lines 343-360) up to and including
the upload kick-off: clears the queue timers, resets the job display fields,
enters `uploading` and starts the upload request. -/
def startProcessingEntry (s : AppState) : AppState × List Ev :=
  ({ s with processingStatus := ProcessingStatus.uploading, progress := 0,
            showDownloadButton := false, showExpiryWarning := false,
            queueInfo := none, queueWaitInfo := none },
   [Ev.clearQueueTimers, Ev.setStatus ProcessingStatus.uploading, Ev.startUpload])

/-- The continuation of `handleFileSelect` after `waitForQueueSpace` resolves
(App.tsx lines 321-335): when space became available, show the cosmetic
`queued` state, sleep 3000 ms, then run `startProcessing`; otherwise the error
was already set inside the wait loop and nothing further happens. -/
def afterWaitSpace (s : AppState) (spaceAvailable : Bool) : AppState × List Ev :=
  if spaceAvailable then
    let s1 := { s with processingStatus := ProcessingStatus.queued,
                       queueInfo := some { position := 0, jobsAhead := 0,
                                           estimatedWaitSeconds := some 0 } }
    ((startProcessingEntry s1).1,
     [Ev.setStatus ProcessingStatus.queued, Ev.sleep 3000] ++ (startProcessingEntry s1).2)
  else
    (s, [])

/-- One full waiting episode: the `waitForQueueSpace` loop followed by the
continuation of `handleFileSelect` once the promise resolves. -/
def queueWaitEpisode (s : AppState) (responses : List CheckSizeResponse) :
    AppState × List Ev :=
  let w := waitLoop s responses
  match w.2.2 with
  | some b => ((afterWaitSpace w.1 b).1, w.2.1 ++ (afterWaitSpace w.1 b).2)
  | none => (w.1, w.2.1)

/-- The busy message built at App.tsx lines 306-313: `retry_after_seconds` is
used through JavaScript truthiness (0 and null both fall back to 5 minutes)
and is divided by 60 rounding up. -/
def busyMessage (r : CheckSizeResponse) : String :=
  let retryMinutes :=
    match r.retry_after_seconds with
    | some sec => if sec = 0 then 5 else (sec + 59) / 60
    | none => 5
  "Server is very busy (" ++ toString r.queue_count ++ " jobs in queue). " ++
    "Please try again in " ++ toString retryMinutes ++ " minute" ++
    (if retryMinutes ≠ 1 then "s" else "") ++ "."

/-- The invalid-file-type message of App.tsx line 261. -/
def invalidTypeMessage : String := "Invalid file type. Only PDF files are allowed."

/-- `handleFileSelect` (App.tsx lines 256-341), driven by the admission
responses the successive `checkQueueAvailability` calls would receive (the
first list element answers the initial check at line 267, the rest feed the
wait loop).  Transport failures are not modelled: every issued check is
answered.  The function stops at the point where `startProcessing` has set
`uploading` and started the upload request. -/
def handleFileSelectEvents (fileType : String) (fileName : List Char)
    (fileSize : Nat) (s : AppState) (responses : List CheckSizeResponse) :
    AppState × List Ev :=
  if fileType ≠ "application/pdf" then
    ({ s with homeErrorMessage := invalidTypeMessage }, [])
  else
    match responses with
    | [] => (s, [Ev.checkSize])
    | r :: rest =>
      if r.allowed = false then
        ({ s with homeErrorMessage := r.message }, [Ev.checkSize])
      else
        let s1 := { s with
          selectedFile := some { name := fileName, type := fileType, size := fileSize },
          homeErrorMessage := "",
          currentStage := Stage.processing,
          processingStatus := ProcessingStatus.checking_queue,
          progress := 0,
          showDownloadButton := false,
          showExpiryWarning := false,
          queueInfo := none,
          queueWaitInfo := none,
          retryAttempt := 0 }
        let evs0 := [Ev.checkSize, Ev.setStatus ProcessingStatus.checking_queue]
        if r.queue_available = true then
          let s2 := { s1 with processingStatus := ProcessingStatus.queued,
                              queueInfo := some { position := 0, jobsAhead := 0,
                                                  estimatedWaitSeconds := some 0 } }
          ((startProcessingEntry s2).1,
           evs0 ++ [Ev.setStatus ProcessingStatus.queued, Ev.sleep 1500] ++
             (startProcessingEntry s2).2)
        else if 10 ≤ r.queue_count then
          ({ s1 with processingStatus := ProcessingStatus.error,
                     errorMessage := busyMessage r },
           evs0 ++ [Ev.setStatus ProcessingStatus.error])
        else
          let s2 := { s1 with processingStatus := ProcessingStatus.queue_full_waiting }
          ((queueWaitEpisode s2 rest).1,
           evs0 ++ [Ev.setStatus ProcessingStatus.queue_full_waiting] ++
             (queueWaitEpisode s2 rest).2)

/-- A convenient fully idle state matching the initial hook values of App.tsx
(lines 44-64). -/
def initState : AppState :=
  { currentStage := Stage.home
    chunkSize := ""
    selectedFile := none
    processingStatus := ProcessingStatus.idle
    progress := 0
    errorMessage := ""
    homeErrorMessage := ""
    history := []
    currentJobId := none
    showDownloadButton := false
    showExpiryWarning := false
    queueInfo := none
    queueWaitInfo := none
    retryAttempt := 0 }

/-- JavaScript String.replace with a string pattern replaces only the first
occurrence of the pattern, scanning left to right.  Used at App.tsx lines 555,
592 and 1042 as `name.replace(".pdf", "-watermarked.pdf")`. -/
def jsReplaceFirst (pat repl : List Char) : List Char → List Char
  | [] => []
  | c :: rest =>
    if pat.isPrefixOf (c :: rest) then repl ++ (c :: rest).drop pat.length
    else c :: jsReplaceFirst pat repl rest

/-- The pattern ".pdf" as a character list. -/
def dotPdf : List Char := ['.', 'p', 'd', 'f']

/-- The replacement "-watermarked.pdf" as a character list. -/
def watermarkedSuffix : List Char :=
  ['-', 'w', 'a', 't', 'e', 'r', 'm', 'a', 'r', 'k', 'e', 'd', '.', 'p', 'd', 'f']

/-- The derived output name: `originalFileName.replace(".pdf", "-watermarked.pdf")`
exactly as computed in App.tsx (lines 555, 592, 1042). -/
def watermarkedName (name : List Char) : List Char :=
  jsReplaceFirst dotPdf watermarkedSuffix name

/-- The history entry written on the auto-download success path (App.tsx lines
575-583): no outstanding download, no job id, no timer. -/
def successEntry (now : Nat) (origName : List Char) : HistoryItem :=
  { id := now
    timestamp := now
    originalName := origName
    watermarkedName := watermarkedName origName
    downloadUrl := ""
    downloadFailed := false
    jobId := none
    expiryTimer := none }

/-- The history entry written on the auto-download failure path (App.tsx lines
593-616): outstanding download, the job id kept for the manual retry, and a
60000 ms expiry timer attached. -/
def failureEntry (now : Nat) (origName : List Char) (jobId : String) : HistoryItem :=
  { id := now
    timestamp := now
    originalName := origName
    watermarkedName := watermarkedName origName
    downloadUrl := ""
    downloadFailed := true
    jobId := some jobId
    expiryTimer := some 60000 }

/-- Clearing of one history item as performed both by the expiry timer callback
(App.tsx lines 605-609) and by a manual download success (line 698): the
outstanding flag, the job id and the timer reference are all removed; nothing
else of the row changes. -/
def clearItem (item : HistoryItem) : HistoryItem :=
  { item with downloadFailed := false, jobId := none, expiryTimer := none }

/-- Outcome of one artifact download fetch as the client distinguishes them:
HTTP 410 (expired), any other failure (network error, non-ok status, missing
or failing body — all reach the catch block), or fully received bytes. -/
inductive DownloadOutcome where
  | expired
  | failure
  | success
deriving DecidableEq

/-- Outcome of the awaited cleanup fetch: `resolved status` when the request
resolved with some HTTP status (the response is never inspected), `netError`
when the fetch rejected (which propagates into the enclosing catch). -/
inductive CleanupOutcome where
  | resolved (status : Nat)
  | netError
deriving DecidableEq

/-- The catch block of `handleAutoDownload` (App.tsx lines 585-620): the job is
still marked `finished`, the manual-download button and the expiry warning are
shown, a history entry with the outstanding flag and a 60-second timer is
prepended, and the fallback error message is set. -/
def autoDownloadCatch (jobId : String) (origName : List Char) (s : AppState)
    (now : Nat) (evs : List Ev) : AppState × List Ev :=
  let item := failureEntry now origName jobId
  ({ s with processingStatus := ProcessingStatus.finished,
            showDownloadButton := true,
            showExpiryWarning := true,
            history := item :: s.history,
            errorMessage := "Automatic download failed. Please use the download button." },
   evs ++ [Ev.setStatus ProcessingStatus.finished, Ev.scheduleExpiry now 60000])

/-- `handleAutoDownload` (App.tsx lines 507-621) as a function of the download
outcome and the cleanup outcome.  A 410 response sets the expired error and
returns without touching history; any other fetch failure runs the catch
block; on success the save is triggered, then the cleanup call is awaited — a
rejected cleanup fetch therefore also lands in the catch block, while a
resolved cleanup of any status is ignored and the success entry is written. -/
def handleAutoDownload (jobId : String) (origName : List Char) (s : AppState)
    (dl : DownloadOutcome) (cu : CleanupOutcome) (now : Nat) : AppState × List Ev :=
  match dl with
  | DownloadOutcome.expired =>
    ({ s with processingStatus := ProcessingStatus.error,
              errorMessage := "Download expired. Please re-upload your PDF file." },
     [Ev.download jobId, Ev.setStatus ProcessingStatus.error])
  | DownloadOutcome.failure =>
    autoDownloadCatch jobId origName s now [Ev.download jobId]
  | DownloadOutcome.success =>
    let evs := [Ev.download jobId, Ev.save (watermarkedName origName), Ev.cleanup jobId]
    match cu with
    | CleanupOutcome.netError => autoDownloadCatch jobId origName s now evs
    | CleanupOutcome.resolved _ =>
      ({ s with processingStatus := ProcessingStatus.finished,
                history := successEntry now origName :: s.history },
       evs ++ [Ev.setStatus ProcessingStatus.finished])

/-- The history update of a successful manual download (App.tsx lines
693-701): every entry whose job id matches has its pending timer cleared and
its outstanding fields removed. -/
def manualHistoryUpdate (jobId : String) (h : List HistoryItem) : List HistoryItem :=
  h.map fun item => if item.jobId = some jobId then clearItem item else item

/-- `handleManualDownload` (App.tsx lines 623-709) as a function of the
download outcome and the cleanup outcome.  It first shows `downloading` with
progress 0; a 410 hides the button and sets the expired error; any other fetch
failure (including a rejected cleanup fetch after a successful save) only
raises an alert and changes no further state; on full success the matching
history entries are cleared and the button and warning are hidden. -/
def handleManualDownload (jobId : String) (fileName : List Char) (s : AppState)
    (dl : DownloadOutcome) (cu : CleanupOutcome) : AppState × List Ev :=
  let s0 := { s with processingStatus := ProcessingStatus.downloading, progress := 0 }
  let evs0 := [Ev.setStatus ProcessingStatus.downloading, Ev.download jobId]
  match dl with
  | DownloadOutcome.expired =>
    ({ s0 with showDownloadButton := false, showExpiryWarning := false,
               processingStatus := ProcessingStatus.error,
               errorMessage := "Download expired (1 minute limit). Please re-upload your PDF file." },
     evs0 ++ [Ev.setStatus ProcessingStatus.error])
  | DownloadOutcome.failure =>
    (s0, evs0 ++ [Ev.alertMsg "Download failed. Please try again."])
  | DownloadOutcome.success =>
    let evs1 := evs0 ++ [Ev.save fileName, Ev.cleanup jobId]
    match cu with
    | CleanupOutcome.netError =>
      (s0, evs1 ++ [Ev.alertMsg "Download failed. Please try again."])
    | CleanupOutcome.resolved _ =>
      ({ s0 with history := manualHistoryUpdate jobId s0.history,
                 showDownloadButton := false, showExpiryWarning := false },
       evs1)

/-- The expiry timer callback of App.tsx lines 604-614, keyed by the entry id
and the job id captured when the timer was created: the entry's outstanding
fields are cleared in place, and when the button is still shown for this very
job it is hidden together with the warning. -/
def expiryFire (entryId : Nat) (jobId : String) (s : AppState) : AppState :=
  let h := s.history.map fun item => if item.id = entryId then clearItem item else item
  if s.showDownloadButton = true ∧ s.currentJobId = some jobId then
    { s with history := h, showDownloadButton := false, showExpiryWarning := false }
  else
    { s with history := h }

/-- `handleOk` (App.tsx lines 744-775): stops polling and the queue timers,
returns to the home stage with status `idle`, and resets every job-scoped
field; the history list is not touched. -/
def handleOk (s : AppState) : AppState × List Ev :=
  ({ s with currentStage := Stage.home,
            processingStatus := ProcessingStatus.idle,
            progress := 0,
            selectedFile := none,
            errorMessage := "",
            chunkSize := "",
            currentJobId := none,
            showDownloadButton := false,
            showExpiryWarning := false,
            queueInfo := none,
            queueWaitInfo := none },
   [Ev.clearPolling, Ev.clearQueueTimers])

/-- The operations that mutate the history list in App.tsx: the two insertions
of `handleAutoDownload` (lines 583, 617), the clearing map of a successful
manual download (lines 693-701), and the clearing map of the expiry timer
(lines 605-609). -/
inductive LedgerOp where
  | autoSuccess (now : Nat) (origName : List Char)
  | autoFailure (now : Nat) (origName : List Char) (jobId : String)
  | manualSuccess (jobId : String)
  | expire (entryId : Nat)
deriving DecidableEq

/-- Applying one ledger operation, exactly as the corresponding `setHistory`
call does it. -/
def applyLedgerOp (h : List HistoryItem) : LedgerOp → List HistoryItem
  | LedgerOp.autoSuccess now orig => successEntry now orig :: h
  | LedgerOp.autoFailure now orig j => failureEntry now orig j :: h
  | LedgerOp.manualSuccess j =>
    h.map fun item => if item.jobId = some j then clearItem item else item
  | LedgerOp.expire eid =>
    h.map fun item => if item.id = eid then clearItem item else item

/-- The history list reached from the empty session ledger by a sequence of
operations. -/
def runLedger (ops : List LedgerOp) : List HistoryItem :=
  ops.foldl applyLedgerOp []

/-- How many entries of a history list carry the outstanding-download flag. -/
def outstandingCount (h : List HistoryItem) : Nat :=
  h.countP fun item => item.downloadFailed

/-- The rendering condition of the manual-download button in the history list
(App.tsx line 886): shown for the item at index `idx` exactly when the index
is 0, the download failed and a job id is still attached. -/
def showsManualButton (item : HistoryItem) (idx : Nat) : Bool :=
  idx == 0 && item.downloadFailed && item.jobId.isSome

/-- How many history rows currently render the manual-download button. -/
def shownButtonCount (h : List HistoryItem) : Nat :=
  (h.enum.countP fun p => showsManualButton p.2 p.1)

/-! Concrete fixtures used by counterexamples and witnesses. -/

/-- An admission response that denies capacity (queue full) while the file
itself is admissible, with the given reported queue count. -/
def denyResponse (qc : Nat) : CheckSizeResponse :=
  { allowed := true
    max_allowed_size := 100
    available_ram := 512
    message := "OK"
    queue_available := false
    queue_message := "Queue is full"
    retry_after_seconds := some 60
    queue_count := qc
    active_jobs := 2 }

/-- An admission response that grants capacity. -/
def grantResponse : CheckSizeResponse :=
  { allowed := true
    max_allowed_size := 100
    available_ram := 512
    message := "OK"
    queue_available := true
    queue_message := ""
    retry_after_seconds := none
    queue_count := 0
    active_jobs := 1 }

/-- An admission response that reports the file inadmissible outright while
the queue also has no capacity. -/
def rejectBothResponse : CheckSizeResponse :=
  { allowed := false
    max_allowed_size := 100
    available_ram := 512
    message := "File too large"
    queue_available := false
    queue_message := "Queue is full"
    retry_after_seconds := some 60
    queue_count := 3
    active_jobs := 2 }

/-- A state in the middle of a waiting episode, as established by
`handleFileSelect` right before it calls `waitForQueueSpace`. -/
def waitingState : AppState :=
  { initState with currentStage := Stage.processing,
                   processingStatus := ProcessingStatus.queue_full_waiting }

/-- A terminal state with one finished job recorded in the history. -/
def terminalState : AppState :=
  { initState with currentStage := Stage.processing,
                   processingStatus := ProcessingStatus.finished,
                   progress := 100,
                   history := [successEntry 1 ('a' :: dotPdf)] }

/-! Helper lemmas. -/

theorem scheduledDelays_append (a b : List Ev) :
    scheduledDelays (a ++ b) = scheduledDelays a ++ scheduledDelays b := by
  simp [scheduledDelays, List.filterMap_append]

theorem uploadingSetCount_append (a b : List Ev) :
    uploadingSetCount (a ++ b) = uploadingSetCount a + uploadingSetCount b := by
  simp [uploadingSetCount, List.countP_append]

theorem scheduledDelays_cons_checkSize (evs : List Ev) :
    scheduledDelays (Ev.checkSize :: evs) = scheduledDelays evs := rfl

theorem scheduledDelays_cons_countdown (evs : List Ev) :
    scheduledDelays (Ev.startCountdown :: evs) = scheduledDelays evs := rfl

theorem scheduledDelays_cons_schedule (d : Nat) (evs : List Ev) :
    scheduledDelays (Ev.schedule d :: evs) = d :: scheduledDelays evs := rfl

theorem uploadingSetCount_cons (e : Ev) (evs : List Ev) :
    uploadingSetCount (e :: evs) =
      uploadingSetCount evs +
        (if e = Ev.setStatus ProcessingStatus.uploading then 1 else 0) := by
  simp [uploadingSetCount, List.countP_cons]

theorem scheduledDelays_cons_setStatus (st : ProcessingStatus) (evs : List Ev) :
    scheduledDelays (Ev.setStatus st :: evs) = scheduledDelays evs := rfl

theorem scheduledDelays_cons_sleep (ms : Nat) (evs : List Ev) :
    scheduledDelays (Ev.sleep ms :: evs) = scheduledDelays evs := rfl

theorem scheduledDelays_cons_clearQueueTimers (evs : List Ev) :
    scheduledDelays (Ev.clearQueueTimers :: evs) = scheduledDelays evs := rfl

theorem scheduledDelays_cons_startUpload (evs : List Ev) :
    scheduledDelays (Ev.startUpload :: evs) = scheduledDelays evs := rfl

theorem scheduledDelays_nil : scheduledDelays [] = [] := rfl

theorem uploadingSetCount_nil : uploadingSetCount [] = 0 := rfl

theorem waitLoop_denied_then_grant_tail (grant : CheckSizeResponse)
    (hga : grant.allowed = true) (hgq : grant.queue_available = true) :
    ∀ ds : List CheckSizeResponse, (∀ r ∈ ds, r.queue_available = false) →
    ∀ s : AppState, 1 ≤ s.retryAttempt →
      (waitLoop s (ds ++ [grant])).2.2 = some true ∧
      (waitLoop s (ds ++ [grant])).1.retryAttempt = 0 ∧
      scheduledDelays (waitLoop s (ds ++ [grant])).2.1 = List.replicate ds.length 10 ∧
      uploadingSetCount (waitLoop s (ds ++ [grant])).2.1 = 0 := by
  intro ds
  induction ds with
  | nil =>
    intro _ s _
    simp [waitLoop, checkAndWaitStep, hga, hgq, scheduledDelays, uploadingSetCount]
  | cons r ds ih =>
    intro hden s hs
    have hr : r.queue_available = false := hden r (by simp)
    have hds : ∀ x ∈ ds, x.queue_available = false := fun x hx => hden x (by simp [hx])
    have hne : ¬ (s.retryAttempt + 1 = 1) := by omega
    obtain ⟨h1, h2, h3, h4⟩ := ih hds
      { s with retryAttempt := s.retryAttempt + 1,
               queueWaitInfo := some { activeJobs := r.active_jobs,
                                       queueCount := r.queue_count,
                                       retryAfterSeconds := 10,
                                       countdownSeconds := 10 } }
      (Nat.succ_le_succ (Nat.zero_le _))
    refine ⟨?_, ?_, ?_, ?_⟩ <;>
      simp [waitLoop, checkAndWaitStep, hr, hne,
            scheduledDelays_cons_checkSize, scheduledDelays_cons_countdown,
            scheduledDelays_cons_schedule, uploadingSetCount_cons,
            h1, h2, h3, h4, List.replicate_succ]

/-! Claim C10. -/

/-- C10: a selected file whose MIME type is not application/pdf is rejected
client-side with the invalid-file-type message before any network call (the
effect list is empty, so no admission check and no upload request is issued),
and the only state change is the home error message — the stage and all
job-scoped fields are untouched. -/
theorem C10_non_pdf_rejected_before_any_network (ft : String) (name : List Char)
    (size : Nat) (s : AppState) (rs : List CheckSizeResponse)
    (h : ft ≠ "application/pdf") :
    handleFileSelectEvents ft name size s rs =
      ({ s with homeErrorMessage := invalidTypeMessage }, []) := by
  simp [handleFileSelectEvents, h]

/-- C10 witness: a text/plain selection on the idle state. -/
theorem C10_witness :
    ("text/plain" : String) ≠ "application/pdf" ∧
    handleFileSelectEvents "text/plain" ('a' :: dotPdf) 7 initState [grantResponse] =
      ({ initState with homeErrorMessage := invalidTypeMessage }, []) :=
  ⟨by decide,
   C10_non_pdf_rejected_before_any_network "text/plain" ('a' :: dotPdf) 7 initState
     [grantResponse] (by decide)⟩

/-! Claim C8. -/

/-- C8: acknowledgment from a terminal state returns to the home stage with
status idle, resets every job-scoped field (identifier, progress, error
message, queue snapshot, selected file, chunk size, wait info, button and
warning flags), emits only the polling/queue timer teardown (never an expiry
timer cancellation), and leaves the history list — outstanding flags and
pending expiry timers included — exactly as it was. -/
theorem C8_ok_resets_job_fields_and_keeps_history (s : AppState)
    (h : s.processingStatus = ProcessingStatus.finished ∨
         s.processingStatus = ProcessingStatus.error) :
    (handleOk s).1.currentStage = Stage.home ∧
    (handleOk s).1.processingStatus = ProcessingStatus.idle ∧
    (handleOk s).1.progress = 0 ∧
    (handleOk s).1.errorMessage = "" ∧
    (handleOk s).1.chunkSize = "" ∧
    (handleOk s).1.selectedFile = none ∧
    (handleOk s).1.currentJobId = none ∧
    (handleOk s).1.queueInfo = none ∧
    (handleOk s).1.queueWaitInfo = none ∧
    (handleOk s).1.showDownloadButton = false ∧
    (handleOk s).1.showExpiryWarning = false ∧
    (handleOk s).1.history = s.history ∧
    (handleOk s).2 = [Ev.clearPolling, Ev.clearQueueTimers] := by
  simp [handleOk]

/-- C8 witness: acknowledgment on a concrete finished state with one history
entry. -/
theorem C8_witness :
    (terminalState.processingStatus = ProcessingStatus.finished ∨
     terminalState.processingStatus = ProcessingStatus.error) ∧
    (handleOk terminalState).1.processingStatus = ProcessingStatus.idle ∧
    (handleOk terminalState).1.history = terminalState.history :=
  ⟨Or.inl rfl,
   (C8_ok_resets_job_fields_and_keeps_history terminalState (Or.inl rfl)).2.1,
   (C8_ok_resets_job_fields_and_keeps_history terminalState (Or.inl rfl)).2.2.2.2.2.2.2.2.2.2.2.1⟩

/-! Claim C9. -/

/-- C9 counterexample: for the original name "a.pdf.pdf" (where ".pdf" occurs
at two positions) the code replaces the FIRST occurrence, producing
"a-watermarked.pdf.pdf", whereas inserting the suffix immediately before the
extension would produce "a.pdf-watermarked.pdf"; the two differ. -/
theorem C9_counterexample :
    watermarkedName ('a' :: (dotPdf ++ dotPdf)) = 'a' :: (watermarkedSuffix ++ dotPdf) ∧
    'a' :: (watermarkedSuffix ++ dotPdf) ≠ 'a' :: (dotPdf ++ watermarkedSuffix) := by
  decide

/-- C9 amended: the derived name replaces the FIRST occurrence of ".pdf" in
the original name with "-watermarked.pdf"; in particular, when the only
occurrence of ".pdf" is the final extension, this coincides with inserting
"-watermarked" immediately before the extension. -/
theorem C9_amended_first_occurrence_replaced (stem : List Char)
    (h : ∀ i, i < stem.length →
         dotPdf.isPrefixOf ((stem ++ dotPdf).drop i) = false) :
    watermarkedName (stem ++ dotPdf) = stem ++ watermarkedSuffix := by
  induction stem with
  | nil => decide
  | cons c cs ih =>
    have h0 : dotPdf.isPrefixOf (c :: (cs ++ dotPdf)) = false := by
      have := h 0 (by simp)
      simpa using this
    have hrest : ∀ i, i < cs.length →
        dotPdf.isPrefixOf ((cs ++ dotPdf).drop i) = false := by
      intro i hi
      have := h (i + 1) (by simpa using Nat.succ_lt_succ hi)
      simpa using this
    have ihr := ih hrest
    simp only [watermarkedName, jsReplaceFirst, List.cons_append] at ihr ⊢
    simp [h0, ihr]

/-- C9 amended witness: the stem "report", whose concatenation with ".pdf"
contains no earlier occurrence of ".pdf". -/
theorem C9_amended_witness :
    (∀ i, i < (['r', 'e', 'p', 'o', 'r', 't'] : List Char).length →
        dotPdf.isPrefixOf (((['r', 'e', 'p', 'o', 'r', 't'] : List Char) ++ dotPdf).drop i) = false) ∧
    watermarkedName ((['r', 'e', 'p', 'o', 'r', 't'] : List Char) ++ dotPdf) =
      (['r', 'e', 'p', 'o', 'r', 't'] : List Char) ++ watermarkedSuffix :=
  ⟨by decide,
   C9_amended_first_occurrence_replaced ['r', 'e', 'p', 'o', 'r', 't'] (by decide)⟩

/-! Claim C1. -/

/-- C1 counterexample: a denial observed DURING a waiting episode that reports
a queue count of 10 does not reach the error state and does schedule a further
re-check — `waitForQueueSpace` never consults `queue_count`, so the hard
ceiling is only enforced by the initial admission check of `handleFileSelect`. -/
theorem C1_counterexample :
    (checkAndWaitStep waitingState (denyResponse 10)).2.2 = WaitOutcome.recheck 5 ∧
    (checkAndWaitStep waitingState (denyResponse 10)).1.processingStatus =
      ProcessingStatus.queue_full_waiting ∧
    (checkAndWaitStep waitingState (denyResponse 10)).2.1 =
      [Ev.checkSize, Ev.startCountdown, Ev.schedule 5] := by
  decide

/-- C1 amended: the hard queue ceiling is enforced only at the initial
admission check — when that first response denies capacity with a reported
queue count of at least 10, the controller reaches the terminal error state
with the busy message, schedules no re-check and never enters uploading;
during a waiting episode, however, every capacity denial (whatever its queue
count) schedules a further re-check and leaves the status unchanged. -/
theorem C1_amended_ceiling_only_at_initial_check
    (s : AppState) (r : CheckSizeResponse) (rest : List CheckSizeResponse)
    (name : List Char) (size : Nat)
    (hA : r.allowed = true) (hq : r.queue_available = false)
    (hc : 10 ≤ r.queue_count) :
    ((handleFileSelectEvents "application/pdf" name size s (r :: rest)).1.processingStatus =
        ProcessingStatus.error ∧
     (handleFileSelectEvents "application/pdf" name size s (r :: rest)).1.errorMessage =
        busyMessage r ∧
     scheduledDelays (handleFileSelectEvents "application/pdf" name size s (r :: rest)).2 = [] ∧
     uploadingSetCount (handleFileSelectEvents "application/pdf" name size s (r :: rest)).2 = 0) ∧
    (∀ (s2 : AppState) (r2 : CheckSizeResponse), r2.queue_available = false →
      (checkAndWaitStep s2 r2).2.2 =
        WaitOutcome.recheck (if s2.retryAttempt + 1 = 1 then 5 else 10) ∧
      (checkAndWaitStep s2 r2).1.processingStatus = s2.processingStatus) := by
  constructor
  · simp [handleFileSelectEvents, hA, hq, hc, scheduledDelays, uploadingSetCount]
  · intro s2 r2 hq2
    constructor <;> simp [checkAndWaitStep, hq2]

/-- C1 amended witness: a first-response denial reporting 12 queued jobs. -/
theorem C1_amended_witness :
    ((denyResponse 12).allowed = true ∧ (denyResponse 12).queue_available = false ∧
     10 ≤ (denyResponse 12).queue_count) ∧
    (handleFileSelectEvents "application/pdf" ('a' :: dotPdf) 7 initState
        [denyResponse 12]).1.processingStatus = ProcessingStatus.error :=
  ⟨⟨rfl, rfl, by decide⟩,
   (C1_amended_ceiling_only_at_initial_check initState (denyResponse 12) []
      ('a' :: dotPdf) 7 rfl rfl (by decide)).1.1⟩

/-! Claim C4. -/

/-- C4 counterexample: a re-check response with allowed = false AND
queue_available = false does not stop the waiting episode — the rejection
branch of `waitForQueueSpace` fires only when the same response reports queue
capacity available, so here a further re-check is scheduled and the status
stays queue_full_waiting. -/
theorem C4_counterexample :
    (checkAndWaitStep waitingState rejectBothResponse).2.2 = WaitOutcome.recheck 5 ∧
    (checkAndWaitStep waitingState rejectBothResponse).1.processingStatus =
      ProcessingStatus.queue_full_waiting ∧
    (checkAndWaitStep waitingState rejectBothResponse).1.errorMessage = "" := by
  decide

/-- C4 amended: during a waiting episode, a response reporting the file
inadmissible (allowed = false) stops waiting with a terminal rejection
carrying the server message exactly when the same response reports queue
capacity available; when capacity is absent the response is treated as an
ordinary capacity denial and a further re-check is scheduled. -/
theorem C4_amended_rejection_needs_capacity_flag
    (s : AppState) (r : CheckSizeResponse) (h : r.allowed = false) :
    (r.queue_available = true →
      (checkAndWaitStep s r).2.2 = WaitOutcome.stop false ∧
      (checkAndWaitStep s r).1.processingStatus = ProcessingStatus.error ∧
      (checkAndWaitStep s r).1.errorMessage = r.message) ∧
    (r.queue_available = false →
      (checkAndWaitStep s r).2.2 =
        WaitOutcome.recheck (if s.retryAttempt + 1 = 1 then 5 else 10) ∧
      (checkAndWaitStep s r).1.processingStatus = s.processingStatus) := by
  constructor <;> intro hq <;> constructor <;> simp [checkAndWaitStep, h, hq]

/-- C4 amended witness: an inadmissible-file response arriving while the queue
also reports no capacity. -/
theorem C4_amended_witness :
    (rejectBothResponse.allowed = false) ∧
    (rejectBothResponse.queue_available = false →
      (checkAndWaitStep waitingState rejectBothResponse).2.2 =
        WaitOutcome.recheck (if waitingState.retryAttempt + 1 = 1 then 5 else 10) ∧
      (checkAndWaitStep waitingState rejectBothResponse).1.processingStatus =
        waitingState.processingStatus) :=
  ⟨rfl, (C4_amended_rejection_needs_capacity_flag waitingState rejectBothResponse rfl).2⟩

/-! Claim C3. -/

/-- The effects emitted before the controller first enters uploading. -/
def eventsBeforeUploading (evs : List Ev) : List Ev :=
  evs.takeWhile fun e => !(e == Ev.setStatus ProcessingStatus.uploading)

/-- C3 counterexample: when the initial admission check grants capacity, the
controller does NOT go directly to uploading — before the first
`setStatus uploading` it shows the cosmetic queued state and sleeps 1500 ms
(the "ready to upload" pause of App.tsx lines 287-299). -/
theorem C3_counterexample :
    Ev.setStatus ProcessingStatus.queued ∈
      eventsBeforeUploading
        (handleFileSelectEvents "application/pdf" ('a' :: dotPdf) 7 initState
          [grantResponse]).2 ∧
    Ev.sleep 1500 ∈
      eventsBeforeUploading
        (handleFileSelectEvents "application/pdf" ('a' :: dotPdf) 7 initState
          [grantResponse]).2 := by
  decide

/-- C3 amended: when the admission check grants capacity the controller never
goes directly to uploading.  First part: a grant at the INITIAL check shows
the cosmetic queued state and sleeps 1500 ms, and only then enters uploading
and starts the upload — exactly one uploading entry, with no further network
check in between.  Second part: a grant that ends a WAITING EPISODE (denials
followed by the granting response) makes the full episode trace equal to the
wait-loop events followed by exactly the queued state, a 3000 ms sleep, the
timer teardown and the uploading entry — the wait-loop events themselves
contain no uploading entry, the episode enters uploading exactly once, and no
admission check follows the granting response. -/
theorem C3_amended_granted_admission_pauses_before_upload
    (s : AppState) (r : CheckSizeResponse) (rest : List CheckSizeResponse)
    (name : List Char) (size : Nat)
    (hA : r.allowed = true) (hq : r.queue_available = true) :
    ((handleFileSelectEvents "application/pdf" name size s (r :: rest)).2 =
       [Ev.checkSize, Ev.setStatus ProcessingStatus.checking_queue,
        Ev.setStatus ProcessingStatus.queued, Ev.sleep 1500,
        Ev.clearQueueTimers, Ev.setStatus ProcessingStatus.uploading, Ev.startUpload] ∧
     (handleFileSelectEvents "application/pdf" name size s (r :: rest)).1.processingStatus =
       ProcessingStatus.uploading ∧
     uploadingSetCount
       (handleFileSelectEvents "application/pdf" name size s (r :: rest)).2 = 1) ∧
    (∀ (s2 : AppState) (ds : List CheckSizeResponse) (g : CheckSizeResponse),
      ds ≠ [] → (∀ x ∈ ds, x.queue_available = false) →
      g.allowed = true → g.queue_available = true → s2.retryAttempt = 0 →
      (queueWaitEpisode s2 (ds ++ [g])).2 =
        (waitLoop s2 (ds ++ [g])).2.1 ++
          [Ev.setStatus ProcessingStatus.queued, Ev.sleep 3000,
           Ev.clearQueueTimers, Ev.setStatus ProcessingStatus.uploading,
           Ev.startUpload] ∧
      uploadingSetCount (waitLoop s2 (ds ++ [g])).2.1 = 0 ∧
      uploadingSetCount (queueWaitEpisode s2 (ds ++ [g])).2 = 1 ∧
      (queueWaitEpisode s2 (ds ++ [g])).1.processingStatus =
        ProcessingStatus.uploading) := by
  constructor
  · refine ⟨?_, ?_, ?_⟩ <;>
      simp [handleFileSelectEvents, startProcessingEntry, hA, hq, uploadingSetCount]
  · intro s2 ds g hne hden hga hgq hs
    obtain ⟨d, ds', rfl⟩ := List.exists_cons_of_ne_nil hne
    have hd : d.queue_available = false := hden d (by simp)
    have hds' : ∀ x ∈ ds', x.queue_available = false := fun x hx => hden x (by simp [hx])
    have h1eq : s2.retryAttempt + 1 = 1 := by omega
    obtain ⟨h1, h2, h3, h4⟩ := waitLoop_denied_then_grant_tail g hga hgq ds' hds'
      { s2 with retryAttempt := 1,
                queueWaitInfo := some { activeJobs := d.active_jobs,
                                        queueCount := d.queue_count,
                                        retryAfterSeconds := 5,
                                        countdownSeconds := 5 } }
      (Nat.le_refl 1)
    refine ⟨?_, ?_, ?_, ?_⟩ <;>
      simp [queueWaitEpisode, waitLoop, checkAndWaitStep, afterWaitSpace,
            startProcessingEntry, hd, h1eq,
            uploadingSetCount_cons, uploadingSetCount_nil, uploadingSetCount_append,
            h1, h2, h4]

/-- C3 amended witness: a granting response on the idle state for the
initial-check part, and one denial followed by a grant from the waiting state
for the post-waiting part. -/
theorem C3_amended_witness :
    (grantResponse.allowed = true ∧ grantResponse.queue_available = true) ∧
    (handleFileSelectEvents "application/pdf" ('a' :: dotPdf) 7 initState
        [grantResponse]).1.processingStatus = ProcessingStatus.uploading ∧
    (queueWaitEpisode waitingState ([denyResponse 3] ++ [grantResponse])).2 =
      (waitLoop waitingState ([denyResponse 3] ++ [grantResponse])).2.1 ++
        [Ev.setStatus ProcessingStatus.queued, Ev.sleep 3000,
         Ev.clearQueueTimers, Ev.setStatus ProcessingStatus.uploading,
         Ev.startUpload] :=
  ⟨⟨rfl, rfl⟩,
   (C3_amended_granted_admission_pauses_before_upload initState grantResponse []
      ('a' :: dotPdf) 7 rfl rfl).1.2.1,
   ((C3_amended_granted_admission_pauses_before_upload initState grantResponse []
      ('a' :: dotPdf) 7 rfl rfl).2 waitingState [denyResponse 3] grantResponse
      (by decide) (by decide) rfl rfl rfl).1⟩

/-! Claim C5. -/

/-- C5 counterexample: the ledger invariant fails.  Starting from the empty
session ledger, two consecutive auto-download failures (the second job
submitted and failed while the first entry's flag was still uncleared and its
timer still pending) leave TWO entries with the outstanding flag set —
`handleAutoDownload` prepends the new flagged entry without clearing the older
one. -/
theorem C5_counterexample :
    outstandingCount (runLedger
      [LedgerOp.autoFailure 1 ('a' :: dotPdf) "job1",
       LedgerOp.autoFailure 2 ('b' :: dotPdf) "job2"]) = 2 ∧
    ¬ outstandingCount (runLedger
      [LedgerOp.autoFailure 1 ('a' :: dotPdf) "job1",
       LedgerOp.autoFailure 2 ('b' :: dotPdf) "job2"]) ≤ 1 := by
  decide

theorem countP_enumFrom_manualButton (l : List HistoryItem) (n : Nat) (hn : n ≠ 0) :
    (List.enumFrom n l).countP (fun p => showsManualButton p.2 p.1) = 0 := by
  rw [List.countP_eq_zero]
  simp only [List.forall_mem_enumFrom]
  intro i _
  simp only [showsManualButton, Bool.and_eq_true, beq_iff_eq]
  rintro ⟨⟨h1, -⟩, -⟩
  exact hn (by omega)

/-- C5 amended: the flag itself may be set on several entries at once (see the
counterexample), but the user-visible affordance respects the invariant: the
manual-download button is rendered for at most one history row, always the
most recently added one (index 0, since every insertion prepends). -/
theorem C5_amended_button_shown_only_for_most_recent (h : List HistoryItem) :
    shownButtonCount h ≤ 1 ∧
    (∀ (item : HistoryItem) (idx : Nat),
      h.get? idx = some item → showsManualButton item idx = true → idx = 0) ∧
    (∀ (h0 : List HistoryItem) (now : Nat) (orig : List Char) (j : String),
      applyLedgerOp h0 (LedgerOp.autoFailure now orig j) = failureEntry now orig j :: h0) := by
  refine ⟨?_, ?_, fun _ _ _ _ => rfl⟩
  · cases h with
    | nil => simp [shownButtonCount]
    | cons x xs =>
      have h0 := countP_enumFrom_manualButton xs 1 (by omega)
      simp [shownButtonCount, List.enum, List.enumFrom, List.countP_cons, h0]
      split <;> simp
  · intro item idx _ hshow
    simp only [showsManualButton, Bool.and_eq_true, beq_iff_eq] at hshow
    exact hshow.1.1

/-- C5 amended witness: on the two-outstanding-entries ledger of the
counterexample scenario the button is still rendered at most once. -/
theorem C5_amended_witness :
    shownButtonCount (runLedger
      [LedgerOp.autoFailure 1 ('a' :: dotPdf) "job1",
       LedgerOp.autoFailure 2 ('b' :: dotPdf) "job2"]) ≤ 1 :=
  (C5_amended_button_shown_only_for_most_recent _).1

/-! Claim C6. -/

/-- C6: when the automatic download fails with any fetch error other than the
expired-artifact response, the job still shows `finished` and a history entry
with the outstanding flag and a 60000 ms expiry timer is prepended; a manual
retrieval performed while the flag is still set (i.e. before the timer fires)
clears the flag and drops the timer reference; if instead the expiry timer
fires first, the affordance fields are cleared but the history row itself is
kept (same length, same derived name). -/
theorem C6_auto_failure_fallback_and_expiry
    (s : AppState) (jobId : String) (orig fname : List Char) (now cs : Nat)
    (cu : CleanupOutcome) :
    ((handleAutoDownload jobId orig s DownloadOutcome.failure cu now).1.processingStatus =
        ProcessingStatus.finished ∧
     (handleAutoDownload jobId orig s DownloadOutcome.failure cu now).1.history =
        failureEntry now orig jobId :: s.history ∧
     (failureEntry now orig jobId).downloadFailed = true ∧
     (failureEntry now orig jobId).expiryTimer = some 60000 ∧
     Ev.scheduleExpiry now 60000 ∈
        (handleAutoDownload jobId orig s DownloadOutcome.failure cu now).2) ∧
    ((handleManualDownload jobId fname
        (handleAutoDownload jobId orig s DownloadOutcome.failure cu now).1
        DownloadOutcome.success (CleanupOutcome.resolved cs)).1.history.head? =
      some (clearItem (failureEntry now orig jobId)) ∧
     (clearItem (failureEntry now orig jobId)).downloadFailed = false ∧
     (clearItem (failureEntry now orig jobId)).expiryTimer = none) ∧
    ((expiryFire now jobId
        (handleAutoDownload jobId orig s DownloadOutcome.failure cu now).1).history.length =
      (handleAutoDownload jobId orig s DownloadOutcome.failure cu now).1.history.length ∧
     (expiryFire now jobId
        (handleAutoDownload jobId orig s DownloadOutcome.failure cu now).1).history.head? =
      some (clearItem (failureEntry now orig jobId)) ∧
     (clearItem (failureEntry now orig jobId)).watermarkedName =
      (failureEntry now orig jobId).watermarkedName) := by
  refine ⟨⟨?_, ?_, rfl, rfl, ?_⟩, ⟨?_, rfl, rfl⟩, ⟨?_, ?_, rfl⟩⟩
  · simp [handleAutoDownload, autoDownloadCatch]
  · simp [handleAutoDownload, autoDownloadCatch]
  · simp [handleAutoDownload, autoDownloadCatch]
  · simp [handleAutoDownload, autoDownloadCatch, handleManualDownload,
          manualHistoryUpdate, failureEntry]
  · simp [expiryFire]
    split <;> simp
  · simp [handleAutoDownload, autoDownloadCatch, expiryFire]
    split <;> simp [failureEntry]

/-! Claim C7. -/

/-- A waiting-for-manual-download state: one flagged history entry for job j1. -/
def pendingManualState : AppState :=
  { initState with currentStage := Stage.processing,
                   processingStatus := ProcessingStatus.finished,
                   currentJobId := some "j1",
                   showDownloadButton := true,
                   showExpiryWarning := true,
                   history := [failureEntry 5 ('a' :: dotPdf) "j1"] }

/-- C7 counterexample: the cleanup call is awaited inside the try block, so
its outcome is NOT irrelevant.  After the artifact bytes are received and the
save is triggered, a cleanup fetch that resolves yields a success history
entry (flag clear), while a cleanup fetch that rejects lands in the catch
block and yields an outstanding entry with an expiry timer; on the manual
path a rejected cleanup skips the history update entirely, leaving the flag
set. -/
theorem C7_counterexample :
    ((handleAutoDownload "j1" ('a' :: dotPdf) initState DownloadOutcome.success
        (CleanupOutcome.resolved 200) 5).1.history.head?.map (fun i => i.downloadFailed)) =
      some false ∧
    ((handleAutoDownload "j1" ('a' :: dotPdf) initState DownloadOutcome.success
        CleanupOutcome.netError 5).1.history.head?.map (fun i => i.downloadFailed)) =
      some true ∧
    (handleManualDownload "j1" (watermarkedName ('a' :: dotPdf)) pendingManualState
        DownloadOutcome.success (CleanupOutcome.resolved 200)).1.history =
      [clearItem (failureEntry 5 ('a' :: dotPdf) "j1")] ∧
    (handleManualDownload "j1" (watermarkedName ('a' :: dotPdf)) pendingManualState
        DownloadOutcome.success CleanupOutcome.netError).1.history =
      [failureEntry 5 ('a' :: dotPdf) "j1"] := by
  decide

/-- C7 amended: a cleanup request that RESOLVES never affects local state —
its HTTP status is ignored on both retrieval paths, so any two resolved
statuses produce identical states and effects; only a cleanup fetch that
rejects at the network level (propagating into the enclosing catch) changes
the outcome. -/
theorem C7_amended_resolved_cleanup_ignored (s : AppState) (j : String)
    (orig fname : List Char) (now a b : Nat) :
    handleAutoDownload j orig s DownloadOutcome.success (CleanupOutcome.resolved a) now =
      handleAutoDownload j orig s DownloadOutcome.success (CleanupOutcome.resolved b) now ∧
    handleManualDownload j fname s DownloadOutcome.success (CleanupOutcome.resolved a) =
      handleManualDownload j fname s DownloadOutcome.success (CleanupOutcome.resolved b) :=
  ⟨rfl, rfl⟩

/-! Claim C2. -/

/-- C2: for a waiting episode (started with the attempt counter reset to 0)
whose admission responses deny capacity N ≥ 1 times and then grant it, the
Queue Waiter schedules exactly N re-checks — 5 seconds before the first and
10 seconds before every subsequent one — the granting response resets the
attempt counter to 0, and the controller enters uploading exactly once. -/
theorem C2_queue_waiter_two_tier_backoff
    (ds : List CheckSizeResponse) (grant : CheckSizeResponse) (s : AppState)
    (hne : ds ≠ []) (hden : ∀ r ∈ ds, r.queue_available = false)
    (hga : grant.allowed = true) (hgq : grant.queue_available = true)
    (hs : s.retryAttempt = 0) :
    scheduledDelays (queueWaitEpisode s (ds ++ [grant])).2 =
      5 :: List.replicate (ds.length - 1) 10 ∧
    (scheduledDelays (queueWaitEpisode s (ds ++ [grant])).2).length = ds.length ∧
    (queueWaitEpisode s (ds ++ [grant])).1.retryAttempt = 0 ∧
    (queueWaitEpisode s (ds ++ [grant])).1.processingStatus =
      ProcessingStatus.uploading ∧
    uploadingSetCount (queueWaitEpisode s (ds ++ [grant])).2 = 1 := by
  obtain ⟨d, ds', rfl⟩ := List.exists_cons_of_ne_nil hne
  have hd : d.queue_available = false := hden d (by simp)
  have hds' : ∀ x ∈ ds', x.queue_available = false := fun x hx => hden x (by simp [hx])
  have h1eq : s.retryAttempt + 1 = 1 := by omega
  obtain ⟨h1, h2, h3, h4⟩ := waitLoop_denied_then_grant_tail grant hga hgq ds' hds'
    { s with retryAttempt := 1,
             queueWaitInfo := some { activeJobs := d.active_jobs,
                                     queueCount := d.queue_count,
                                     retryAfterSeconds := 5,
                                     countdownSeconds := 5 } }
    (Nat.le_refl 1)
  refine ⟨?_, ?_, ?_, ?_, ?_⟩ <;>
    simp [queueWaitEpisode, waitLoop, checkAndWaitStep, afterWaitSpace,
          startProcessingEntry, hd, h1eq,
          scheduledDelays_cons_checkSize, scheduledDelays_cons_countdown,
          scheduledDelays_cons_schedule, scheduledDelays_cons_setStatus,
          scheduledDelays_cons_sleep, scheduledDelays_cons_clearQueueTimers,
          scheduledDelays_cons_startUpload, scheduledDelays_nil,
          scheduledDelays_append, uploadingSetCount_cons, uploadingSetCount_nil,
          uploadingSetCount_append, h1, h2, h3, h4]

/-- C2 witness: two denials followed by a grant, starting from the waiting
state with attempt counter 0: re-checks scheduled after 5 s then 10 s, the
counter back at 0, and exactly one entry into uploading. -/
theorem C2_witness :
    (([denyResponse 3, denyResponse 4] : List CheckSizeResponse) ≠ [] ∧
     grantResponse.allowed = true ∧ grantResponse.queue_available = true ∧
     waitingState.retryAttempt = 0) ∧
    scheduledDelays
        (queueWaitEpisode waitingState
          ([denyResponse 3, denyResponse 4] ++ [grantResponse])).2 =
      5 :: List.replicate 1 10 ∧
    uploadingSetCount
        (queueWaitEpisode waitingState
          ([denyResponse 3, denyResponse 4] ++ [grantResponse])).2 = 1 :=
  ⟨⟨by decide, rfl, rfl, rfl⟩,
   (C2_queue_waiter_two_tier_backoff [denyResponse 3, denyResponse 4] grantResponse
      waitingState (by decide) (by decide) rfl rfl rfl).1,
   (C2_queue_waiter_two_tier_backoff [denyResponse 3, denyResponse 4] grantResponse
      waitingState (by decide) (by decide) rfl rfl rfl).2.2.2.2⟩

end WaterMarks
